import Mathlib

/-!
Shallow embedding of the sd-tennis-backend repository (three Python sources:
`coaching_prompt.py`, `analysis_pipeline.py`, `app.py`) and proofs about it.

External effects (the filesystem, the ffmpeg/ffprobe subprocesses, the remote
model call, the werkzeug `secure_filename` library function) are modelled as
explicit inputs: a `VideoEnv` record describes what the external world would
answer, and the embedded functions are pure functions of it.  Machine floats
from the source carry only a video duration obtained from ffprobe and the
derived sampling interval; they are modelled as rationals.
-/

namespace SDTennis

/-- A JSON-ish value, enough for the dictionaries the backend builds. -/
inductive JVal where
  | null : JVal
  | bool (b : Bool) : JVal
  | nat (n : Nat) : JVal
  | str (s : String) : JVal
deriving DecidableEq, Repr

/-- A Python dict with string keys, as an association list (insertion order,
which Python preserves, is kept). -/
abbrev JDict := List (String × JVal)

/-- Dict lookup `d[k]` (first binding wins, as in a Python dict built once). -/
def getKey (d : JDict) (k : String) : Option JVal :=
  (d.find? (fun p => p.1 = k)).map Prod.snd

/-- The keys of a dict, in order. -/
def keysOf (d : JDict) : List String := d.map Prod.fst

/-- The Python exceptions that can cross function boundaries in this codebase:
`FileNotFoundError` and `RuntimeError` raised by `extract_frames`,
`anthropic.APIError` from the remote call, and `json.JSONDecodeError`
raised by `json.loads` inside `get_video_duration` (a subclass of
`ValueError`, hence NOT a `RuntimeError`). -/
inductive PyExn where
  | FileNotFoundError (msg : String) : PyExn
  | RuntimeError (msg : String) : PyExn
  | APIError (msg : String) : PyExn
  | JSONDecodeError (msg : String) : PyExn
deriving DecidableEq, Repr

/-- The optional student-context dict: keys `name`, `level`, `age`, `concerns`,
each independently present or absent (`app.py` only inserts present form
fields).  `Option StudentInfo` models Python's truthiness test `if student_info:`
— `none` stands for `None` or an empty dict. -/
structure StudentInfo where
  name : Option String
  level : Option String
  age : Option Nat
  concerns : Option String
deriving DecidableEq, Repr

/-! ## coaching_prompt.py -/

/-- Python `str.lower()` restricted to ASCII (all inputs of interest are ASCII). -/
def pyLower (s : String) : String := String.mk (s.data.map Char.toLower)

/-- Helper for `pyTitle`: the boolean records whether the previous character was
alphabetic (Python capitalises a letter exactly when the previous character is
not cased). -/
def pyTitleAux : Bool → List Char → List Char
  | _, [] => []
  | prevAlpha, c :: cs =>
      (if c.isAlpha then (if prevAlpha then c.toLower else c.toUpper) else c)
        :: pyTitleAux c.isAlpha cs

/-- Python `str.title()` restricted to ASCII letters. -/
def pyTitle (s : String) : String := String.mk (pyTitleAux false s.data)

/-- Python `str.replace('_', ' ')`. -/
def replaceUnderscore (s : String) : String :=
  String.mk (s.data.map (fun c => if c = '_' then ' ' else c))

/-- Entry `STROKE_CONTEXT["forehand"]` from coaching_prompt.py. -/
def strokeContextForehand : String :=
  "\nFocus especially on:\n- Grip type (Eastern, Semi-Western, Western) and whether it matches the swing path\n- Eastern players: watch for late contact and arm-dominant swings\n- Western players: watch for over-rotation and loss of court depth\n- The windshield wiper finish vs. abbreviated follow-through\n"

/-- Entry `STROKE_CONTEXT["backhand_one_handed"]` from coaching_prompt.py. -/
def strokeContextBackhandOne : String :=
  "\nFocus especially on:\n- Shoulder turn is CRITICAL — one-handers require more rotation than two-handers\n- Contact point must be further in front than a two-hander\n- Wrist stability at contact — the most common breakdown point\n- Slice vs. topspin mechanics differ significantly; identify which is being attempted\n"

/-- Entry `STROKE_CONTEXT["backhand_two_handed"]` from coaching_prompt.py. -/
def strokeContextBackhandTwo : String :=
  "\nFocus especially on:\n- Non-dominant arm driving the shot (most students rely too much on dominant arm)\n- Hip clearance — hips must rotate out of the way on open-stance backhands\n- Contact point height — two-handers excel at shoulder height, struggle below the knee\n"

/-- Entry `STROKE_CONTEXT["serve"]` from coaching_prompt.py. -/
def strokeContextServe : String :=
  "\nFocus especially on:\n- Toss consistency is the #1 serve problem at all levels\n- The kinetic chain: legs → hips → torso → shoulder → elbow → wrist\n- Are they hitting with arm only, or using their legs?\n- Second serve: look for excessive caution vs. committed swing\n"

/-- Entry `STROKE_CONTEXT["volley"]` from coaching_prompt.py. -/
def strokeContextVolley : String :=
  "\nFocus especially on:\n- Compact backswing — volleys are BLOCKS, not swings\n- Continental grip — Eastern grip is the most common volley error\n- Ready position and split step timing at the net\n- Head stability through contact\n"

/-- Entry `STROKE_CONTEXT["general"]` from coaching_prompt.py. -/
def strokeContextGeneral : String :=
  "\nAnalyze whatever strokes are most visible in the provided frames.\nIf multiple strokes are shown, prioritize the one with the clearest \nmechanical issue or the one most central to the student\x27s game.\n"

/-- The `STROKE_CONTEXT` dict of coaching_prompt.py, as a partial lookup. -/
def STROKE_CONTEXT (k : String) : Option String :=
  if k = "forehand" then some strokeContextForehand
  else if k = "backhand_one_handed" then some strokeContextBackhandOne
  else if k = "backhand_two_handed" then some strokeContextBackhandTwo
  else if k = "serve" then some strokeContextServe
  else if k = "volley" then some strokeContextVolley
  else if k = "general" then some strokeContextGeneral
  else none

/-- Lookup `STROKE_CONTEXT.get(stroke_type, STROKE_CONTEXT["general"])` — the
fragment-selection line of `build_user_prompt` (coaching_prompt.py line 197). -/
def stroke_addition_of (stroke_type : String) : String :=
  (STROKE_CONTEXT stroke_type).getD strokeContextGeneral

/-- The `student_context` block built at the top of `build_user_prompt`.
`student_info.get("age", "")` yields a falsy value when absent, so the Age and
notes lines disappear with their trailing newline (the conditional f-string
expressions sit on lines of their own inside the triple-quoted template). -/
def student_context_of (student_info : Option StudentInfo) : String :=
  match student_info with
  | none => ""
  | some si =>
      let name := si.name.getD "the student"
      let level := si.level.getD "intermediate"
      let ageLine := match si.age with
        | some a => if a = 0 then "" else "- Age: " ++ toString a
        | none => ""
      let concernsLine := match si.concerns with
        | some c => if c = "" then "" else "- Student notes: " ++ c
        | none => ""
      "\nSTUDENT PROFILE:\n- Name: " ++ name ++ "\n- Level: " ++ level ++ "\n"
        ++ ageLine ++ "\n" ++ concernsLine ++ "\n\n"

/-- Function `build_user_prompt` from coaching_prompt.py: the user-facing prompt text
sent alongside the frames. -/
def build_user_prompt (frames_count : Nat) (stroke_type : String)
    (student_info : Option StudentInfo) : String :=
  student_context_of student_info
    ++ "I\x27m sending you " ++ toString frames_count
    ++ " frames extracted from a tennis video.\nPlease analyze the stroke mechanics shown across these frames.\n\nStroke type: "
    ++ pyTitle (replaceUnderscore stroke_type)
    ++ "\n\n" ++ stroke_addition_of stroke_type
    ++ "\n\nProvide your full structured analysis following the format in your instructions."

/-! ## analysis_pipeline.py

The external world seen by one pipeline run: whether the video path exists,
what `json.loads` makes of the ffprobe output, how the ffmpeg subprocess
exits, and which (already base64-encoded) frames it leaves in the temporary
directory. -/

structure VideoEnv where
  pathExists : Bool
  probeOutput : Except String ℚ
  ffmpegReturncode : Int
  ffmpegStderr : String
  producedFrames : List String
deriving Repr

/-- Constant `FRAMES_TO_EXTRACT = 10` (analysis_pipeline.py). -/
def FRAMES_TO_EXTRACT : Nat := 10

/-- Constant `MAX_VIDEO_DURATION = 120` (analysis_pipeline.py). -/
def MAX_VIDEO_DURATION : ℚ := 120

/-- Function `get_video_duration`: runs ffprobe and parses its JSON output.  The
subprocess result is never checked for a non-zero exit; the only way this
function fails is `json.loads` (or the key access) raising on unusable
output, which is a `json.JSONDecodeError`, not a `RuntimeError`. -/
def get_video_duration (env : VideoEnv) : Except PyExn ℚ :=
  match env.probeOutput with
  | .error e => .error (.JSONDecodeError e)
  | .ok d => .ok d

/-- Python's `f"{interval:.2f}"`: the interval rendered with two decimal
places.  `r` is `⌊100·q + 1/2⌋` written with integer arithmetic on the
reduced fraction (Python rounds exact ties to even, a case no value this
program formats hits). -/
def fmt2f (q : ℚ) : String :=
  let r : ℤ := (200 * q.num + q.den) / (2 * (q.den : ℤ))
  let ip : ℤ := r / 100
  let fp : Nat := (r % 100).natAbs
  toString ip ++ "." ++ (if fp < 10 then "0" ++ toString fp else toString fp)

/-- The duration actually analyzed: `extract_frames` overwrites `duration`
with `MAX_VIDEO_DURATION` when the probed duration exceeds the cap. -/
def capped_duration (duration : ℚ) : ℚ :=
  if duration > MAX_VIDEO_DURATION then MAX_VIDEO_DURATION else duration

/-- Line `interval = duration / num_frames` after capping (analysis_pipeline.py
lines 59-65). -/
def sampling_interval (duration : ℚ) (num_frames : Nat) : ℚ :=
  capped_duration duration / num_frames

/-- The ffmpeg argument list assembled by `extract_frames` (lines 74-82):
uniform fps filter at the computed interval, `-vframes num_frames`. -/
def ffmpeg_cmd (video_path : String) (duration : ℚ) (num_frames : Nat)
    (tmpdir : String) : List String :=
  ["ffmpeg", "-i", video_path,
   "-vf", "fps=1/" ++ fmt2f (sampling_interval duration num_frames),
   "-q:v", "2",
   "-vframes", toString num_frames,
   "-y",
   tmpdir ++ "/frame_%03d.jpg"]

/-- Function `extract_frames`: raises `FileNotFoundError` when the path is missing,
propagates the probe failure, raises `RuntimeError` on a non-zero ffmpeg
exit or when no frame files were produced, and otherwise returns the
base64-encoded frames in sorted filename order (the env lists them so). -/
def extract_frames (video_path : String) (env : VideoEnv) (num_frames : Nat) :
    Except PyExn (List String) :=
  if env.pathExists = false then
    .error (.FileNotFoundError ("Video not found: " ++ video_path))
  else
    match get_video_duration env with
    | .error e => .error e
    | .ok _duration =>
        if env.ffmpegReturncode ≠ 0 then
          .error (.RuntimeError ("FFmpeg failed: " ++ env.ffmpegStderr))
        else if env.producedFrames = [] then
          .error (.RuntimeError "No frames were extracted. Check video format.")
        else
          .ok env.producedFrames

/-- One content block of the message sent to the model. -/
inductive Block where
  | image (data : String) : Block
  | text (t : String) : Block
deriving DecidableEq, Repr

/-- The per-frame blocks built by the `for i, frame_b64 in enumerate(...)`
loop of `analyze_frames_with_claude`: each frame as an image block followed
by its 1-indexed `[Frame k]` label. -/
def frame_blocks : List String → Nat → List Block
  | [], _ => []
  | f :: rest, i =>
      Block.image f :: Block.text ("[Frame " ++ toString (i + 1) ++ "]")
        :: frame_blocks rest (i + 1)

/-- The full `content` list of the single user message: the frame blocks,
then one trailing text block holding the user prompt. -/
def message_content (frames_b64 : List String) (stroke_type : String)
    (student_info : Option StudentInfo) : List Block :=
  frame_blocks frames_b64 0
    ++ [Block.text (build_user_prompt frames_b64.length stroke_type student_info)]

/-- The failure envelopes of `analyze_tennis_video` (lines 260-267): each
`except` clause returns `{"success": False, "error": <category prefix + str(e)>,
"analysis": None}`.  `JSONDecodeError` is not a `RuntimeError`, so it falls
through to the final `except Exception` clause. -/
def errorEnvelope : PyExn → JDict
  | .FileNotFoundError m =>
      [("success", .bool false), ("error", .str ("Video file not found: " ++ m)),
       ("analysis", .null)]
  | .RuntimeError m =>
      [("success", .bool false), ("error", .str ("Processing error: " ++ m)),
       ("analysis", .null)]
  | .APIError m =>
      [("success", .bool false), ("error", .str ("Claude API error: " ++ m)),
       ("analysis", .null)]
  | .JSONDecodeError m =>
      [("success", .bool false), ("error", .str ("Unexpected error: " ++ m)),
       ("analysis", .null)]

/-- Function `analyze_tennis_video`: extract frames, call the model (its outcome is the
`apiResult` input), and wrap the result.  The success branch builds the
six-key dict of lines 251-258; every failure branch returns the three-key
`errorEnvelope`. -/
def analyze_tennis_video (video_path : String) (stroke_type : String)
    (student_info : Option StudentInfo) (env : VideoEnv)
    (apiResult : Except PyExn String) : JDict :=
  match extract_frames video_path env FRAMES_TO_EXTRACT with
  | .error e => errorEnvelope e
  | .ok frames =>
      match apiResult with
      | .error e => errorEnvelope e
      | .ok analysis =>
          [("success", .bool true),
           ("analysis", .str analysis),
           ("frames_analyzed", .nat frames.length),
           ("stroke_type", .str stroke_type),
           ("student_name", .str (match student_info with
              | some si => si.name.getD "Student"
              | none => "Student")),
           ("error", .null)]

/-! ## app.py -/

/-- Constant `ALLOWED_EXTENSIONS` (app.py line 38); a Python set, used for membership
only. -/
def ALLOWED_EXTENSIONS : List String := ["mp4", "mov", "avi", "mkv", "m4v", "webm"]

/-- Expression `filename.rsplit('.', 1)[1]` when a dot is present: the substring after
the last `'.'`. -/
def extAfterLastDot (s : String) : String :=
  String.mk ((s.data.reverse.takeWhile (fun c => c ≠ '.')).reverse)

/-- Function `allowed_file` (app.py lines 45-47): the filename contains a dot and the
lowercased part after the last dot is an allowed extension. -/
def allowed_file (filename : String) : Bool :=
  filename.data.contains '.'
    && ALLOWED_EXTENSIONS.contains (pyLower (extAfterLastDot filename))

/-- The uploaded file object, reduced to what the handler inspects. -/
structure FileUpload where
  filename : String
deriving DecidableEq, Repr

/-- One `/api/analyze` request: the optional `video` file part and the form
fields the handler reads.  A field sent empty is `some ""` (present but
falsy in Python), an absent field is `none`. -/
structure AnalyzeReq where
  video : Option FileUpload
  form_stroke_type : Option String
  form_name : Option String
  form_age : Option String
  form_level : Option String
  form_concerns : Option String
deriving Repr

/-- Python truthiness filter for `request.form.get(k)`: an absent or empty
string field guards its `if` to false. -/
def formTruthy : Option String → Option String
  | some s => if s = "" then none else some s
  | none => none

/-- Python `str.strip()` (ASCII whitespace, which is all these fields carry). -/
def pyStrip (s : String) : String := s.trim

/-- Python slicing `s[:n]`. -/
def pyTake (n : Nat) (s : String) : String := String.mk (s.data.take n)

/-- Expression `int(request.form['age'])` with the `ValueError` swallowed; modelled for
the non-negative decimal strings the form sends. -/
def parse_age (s : String) : Option Nat := s.toNat?

/-- The `student_info` dict built from form fields (app.py lines 91-102),
then the call-site coercion `student_info if student_info else None`
(an empty dict is falsy). -/
def build_student_info (req : AnalyzeReq) : Option StudentInfo :=
  let name := (formTruthy req.form_name).map (fun s => pyTake 50 (pyStrip s))
  let age := (formTruthy req.form_age).bind parse_age
  let level := formTruthy req.form_level
  let concerns := (formTruthy req.form_concerns).map (fun s => pyTake 500 (pyStrip s))
  if name = none ∧ age = none ∧ level = none ∧ concerns = none then none
  else some ⟨name, level, age, concerns⟩

/-- Expression `f"{uuid.uuid4().hex}_{secure_filename(video_file.filename)}"`: the
randomized name the upload is saved under inside the scratch folder. -/
def upload_path (uuidhex : String) (sec_name : String) : String :=
  uuidhex ++ "_" ++ sec_name

/-- Outcome of `video_file.save(...)`: success, or an exception (with whether
a partial file was left behind, which the `finally` clause must handle). -/
inductive SaveOutcome where
  | ok : SaveOutcome
  | exn (fileCreated : Bool) (msg : String) : SaveOutcome
deriving Repr

/-- What the handler hands back and leaves behind: HTTP status, JSON body,
and the scratch directory contents after the `finally` clause ran. -/
structure HandlerOutcome where
  status : Nat
  body : JDict
  scratch : List String
deriving Repr

/-- The `/api/analyze` handler (app.py lines 60-138).  `uuidhex` is the drawn
random name part, `sec_name` the werkzeug `secure_filename` library output for
the uploaded filename, `save` the outcome of writing the file, `env` and
`apiResult` the external world of the pipeline run, `scratch0` the scratch
directory contents on entry.  Validation returns happen before the `try`
block, so they touch nothing; every path through the `try` runs the
`finally` clause, which unlinks the upload if it exists. -/
def analyze_handler (req : AnalyzeReq) (uuidhex sec_name : String)
    (save : SaveOutcome) (env : VideoEnv) (apiResult : Except PyExn String)
    (scratch0 : List String) : HandlerOutcome :=
  match req.video with
  | none =>
      ⟨400, [("success", .bool false), ("error", .str "No video file uploaded")],
       scratch0⟩
  | some video_file =>
      if video_file.filename = "" then
        ⟨400, [("success", .bool false), ("error", .str "No file selected")],
         scratch0⟩
      else if allowed_file video_file.filename = false then
        ⟨400, [("success", .bool false),
               ("error", .str "Unsupported file format. Please upload MP4, MOV, or AVI.")],
         scratch0⟩
      else
        let student_info := build_student_info req
        let stroke_type := req.form_stroke_type.getD "general"
        let video_path := upload_path uuidhex sec_name
        match save with
        | .exn fileCreated msg =>
            let scratch1 := if fileCreated then scratch0 ++ [video_path] else scratch0
            ⟨500,
             [("success", .bool false), ("error", .str ("Server error: " ++ msg))],
             scratch1.filter (fun p => p ≠ video_path)⟩
        | .ok =>
            let scratch1 := scratch0 ++ [video_path]
            let result := analyze_tennis_video video_path stroke_type student_info
              env apiResult
            let status := if getKey result "success" = some (.bool true) then 200 else 500
            ⟨status, result, scratch1.filter (fun p => p ≠ video_path)⟩

/-- The 413 error handler `file_too_large` (app.py lines 155-160). -/
def file_too_large : Nat × JDict :=
  (413, [("success", .bool false),
         ("error", .str "Video file is too large. Please keep it under 500MB.")])

/-- The three upload validation checks, in handler order; true when any of
them rejects the request. -/
def failsValidation (req : AnalyzeReq) : Bool :=
  match req.video with
  | none => true
  | some vf => vf.filename = "" || !allowed_file vf.filename

/-- String concatenation is associative (used to normalise the message
prefixes the pipeline glues together). -/
theorem string_append_assoc (a b c : String) : a ++ b ++ c = a ++ (b ++ c) := by
  rcases a with ⟨a⟩; rcases b with ⟨b⟩; rcases c with ⟨c⟩
  exact congrArg String.mk (List.append_assoc a b c)

/-! ## Environments used to evaluate the embedding on concrete inputs -/

/-- A world in which everything succeeds: the path exists, ffprobe reports a
30-second video, ffmpeg exits 0 and produces one frame per requested slot. -/
def envOk : VideoEnv :=
  ⟨true, .ok 30, 0, "",
   ["fA", "fB", "fC", "fD", "fE", "fF", "fG", "fH", "fI", "fJ"]⟩

/-- A world in which the video path does not exist. -/
def envMissing : VideoEnv := ⟨false, .ok 30, 0, "", ["fA"]⟩

/-- A world in which ffprobe's output cannot be parsed (`json.loads` raises
with this message on empty stdout). -/
def envProbeFail : VideoEnv :=
  ⟨true, .error "Expecting value: line 1 column 1 (char 0)", 0, "", ["fA"]⟩

/-! ## C1 -/

/-- C1 (code bug): the claim — every return of `analyze_tennis_video` carries
all six keys `success, analysis, frames_analyzed, stroke_type, student_name,
error` — matches the function's own docstring, but the failure branches
return a three-key dict.  At the concrete failing input (a video path that
does not exist) the returned keys are exactly `success, error, analysis`:
`frames_analyzed`, `stroke_type` and `student_name` are absent.  The
analysis/error exclusivity half of the claim does hold on this output. -/
theorem failure_envelope_keys_missing :
    keysOf (analyze_tennis_video "/tmp/missing.mp4" "forehand" none envMissing
        (.ok "Analysis text")) = ["success", "error", "analysis"] ∧
    "frames_analyzed" ∉ keysOf (analyze_tennis_video "/tmp/missing.mp4" "forehand"
        none envMissing (.ok "Analysis text")) ∧
    "stroke_type" ∉ keysOf (analyze_tennis_video "/tmp/missing.mp4" "forehand"
        none envMissing (.ok "Analysis text")) ∧
    "student_name" ∉ keysOf (analyze_tennis_video "/tmp/missing.mp4" "forehand"
        none envMissing (.ok "Analysis text")) ∧
    getKey (analyze_tennis_video "/tmp/missing.mp4" "forehand" none envMissing
        (.ok "Analysis text")) "success" = some (.bool false) ∧
    getKey (analyze_tennis_video "/tmp/missing.mp4" "forehand" none envMissing
        (.ok "Analysis text")) "analysis" = some .null := by
  decide

/-! ## C2 -/

/-- C2 (counterexample): with stroke_type `"smash"` (unknown) the observable
behaviour is NOT identical to `"general"` on the same inputs — the user
prompt differs (the raw stroke type is interpolated into its `Stroke type:`
line) and the response envelope echoes `"smash"` in its `stroke_type`
field. -/
theorem unknown_stroke_not_identical :
    build_user_prompt 10 "smash" none ≠ build_user_prompt 10 "general" none ∧
    getKey (analyze_tennis_video "v.mp4" "smash" none envOk (.ok "A"))
        "stroke_type" = some (.str "smash") ∧
    getKey (analyze_tennis_video "v.mp4" "general" none envOk (.ok "A"))
        "stroke_type" = some (.str "general") := by
  decide

/-- C2 (amended): for a stroke type outside the known six keys, the
stroke-specific instruction fragment selected by `build_user_prompt` falls
back to the `"general"` fragment (the rest of the prompt and the envelope
still echo the raw stroke-type string). -/
theorem unknown_stroke_fragment_fallback (st : String)
    (h : st ∉ ["forehand", "backhand_one_handed", "backhand_two_handed",
               "serve", "volley", "general"]) :
    stroke_addition_of st = stroke_addition_of "general" := by
  simp only [List.mem_cons, List.mem_singleton, not_or] at h
  obtain ⟨h1, h2, h3, h4, h5, h6, -⟩ := h
  simp [stroke_addition_of, STROKE_CONTEXT, h1, h2, h3, h4, h5, h6]

/-- C2 (witness): the fallback theorem applied at the unknown stroke type
`"smash"`. -/
theorem unknown_stroke_fragment_fallback_witness :
    stroke_addition_of "smash" = stroke_addition_of "general" :=
  unknown_stroke_fragment_fallback "smash" (by decide)

/-! ## C3 -/

/-- C3 (counterexample): when duration probing fails (ffprobe output that
`json.loads` rejects), the orchestrator returns the generic
`Unexpected error:` category, not a `Processing error:` — the
`json.JSONDecodeError` is not a `RuntimeError`, so it falls through to the
final `except Exception` clause. -/
theorem probe_failure_unexpected_category :
    analyze_tennis_video "v.mp4" "general" none envProbeFail (.ok "A") =
      [("success", .bool false),
       ("error", .str "Unexpected error: Expecting value: line 1 column 1 (char 0)"),
       ("analysis", .null)] := by
  decide

/-- C3 (amended): the failure-category mapping of the pipeline —
a missing source path yields the not-found category, a non-zero ffmpeg exit
and an empty frame output each yield the processing category, but a duration
probing failure yields the generic unexpected-error category (not a
processing error as the claim stated). -/
theorem error_category_mapping (vp st m : String) (dur : ℚ)
    (si : Option StudentInfo) (env : VideoEnv) (api : Except PyExn String) :
    (env.pathExists = false →
      analyze_tennis_video vp st si env api =
        [("success", .bool false),
         ("error", .str ("Video file not found: " ++ ("Video not found: " ++ vp))),
         ("analysis", .null)]) ∧
    (env.pathExists = true → env.probeOutput = .error m →
      analyze_tennis_video vp st si env api =
        [("success", .bool false), ("error", .str ("Unexpected error: " ++ m)),
         ("analysis", .null)]) ∧
    (env.pathExists = true → env.probeOutput = .ok dur → env.ffmpegReturncode ≠ 0 →
      analyze_tennis_video vp st si env api =
        [("success", .bool false),
         ("error", .str ("Processing error: " ++ ("FFmpeg failed: " ++ env.ffmpegStderr))),
         ("analysis", .null)]) ∧
    (env.pathExists = true → env.probeOutput = .ok dur → env.ffmpegReturncode = 0 →
      env.producedFrames = [] →
      analyze_tennis_video vp st si env api =
        [("success", .bool false),
         ("error", .str "Processing error: No frames were extracted. Check video format."),
         ("analysis", .null)]) := by
  refine ⟨fun hp => ?_, fun hp hprobe => ?_, fun hp hprobe hrc => ?_,
          fun hp hprobe hrc hfr => ?_⟩
  · simp [analyze_tennis_video, extract_frames, get_video_duration, errorEnvelope,
          hp, string_append_assoc]
  · simp [analyze_tennis_video, extract_frames, get_video_duration, errorEnvelope,
          hp, hprobe, string_append_assoc]
  · simp [analyze_tennis_video, extract_frames, get_video_duration, errorEnvelope,
          hp, hprobe, hrc, string_append_assoc]
  · simp [analyze_tennis_video, extract_frames, get_video_duration, errorEnvelope,
          hp, hprobe, hrc, hfr, string_append_assoc]

/-- C3 (witness): the category mapping evaluated in four concrete worlds —
missing path, unparseable probe output, ffmpeg exit 1, and zero frames
produced. -/
theorem error_category_mapping_witness :
    analyze_tennis_video "a.mp4" "general" none envMissing (.ok "A") =
      [("success", .bool false),
       ("error", .str "Video file not found: Video not found: a.mp4"),
       ("analysis", .null)] ∧
    analyze_tennis_video "a.mp4" "general" none envProbeFail (.ok "A") =
      [("success", .bool false),
       ("error", .str "Unexpected error: Expecting value: line 1 column 1 (char 0)"),
       ("analysis", .null)] ∧
    analyze_tennis_video "a.mp4" "general" none ⟨true, .ok 30, 1, "boom", []⟩ (.ok "A") =
      [("success", .bool false), ("error", .str "Processing error: FFmpeg failed: boom"),
       ("analysis", .null)] ∧
    analyze_tennis_video "a.mp4" "general" none ⟨true, .ok 30, 0, "", []⟩ (.ok "A") =
      [("success", .bool false),
       ("error", .str "Processing error: No frames were extracted. Check video format."),
       ("analysis", .null)] :=
  ⟨(error_category_mapping "a.mp4" "general" "" 30 none envMissing (.ok "A")).1 rfl,
   (error_category_mapping "a.mp4" "general" "Expecting value: line 1 column 1 (char 0)"
      30 none envProbeFail (.ok "A")).2.1 rfl rfl,
   (error_category_mapping "a.mp4" "general" "" 30 none
      ⟨true, .ok 30, 1, "boom", []⟩ (.ok "A")).2.2.1 rfl rfl (by decide),
   (error_category_mapping "a.mp4" "general" "" 30 none
      ⟨true, .ok 30, 0, "", []⟩ (.ok "A")).2.2.2 rfl rfl rfl rfl⟩

/-! ## C4 -/

/-- C4: a request failing any of the three upload checks — missing `video`
field, empty filename, extension outside the allow-list, tested in that
order — gets HTTP 400, the scratch directory is left exactly as it was, and
the body carries the message of the first failing check. -/
theorem validation_rejects_before_save (req : AnalyzeReq) (uuidhex sec_name : String)
    (save : SaveOutcome) (env : VideoEnv) (api : Except PyExn String)
    (scratch0 : List String) (h : failsValidation req = true) :
    (analyze_handler req uuidhex sec_name save env api scratch0).status = 400 ∧
    (analyze_handler req uuidhex sec_name save env api scratch0).scratch = scratch0 ∧
    (analyze_handler req uuidhex sec_name save env api scratch0).body =
      (match req.video with
       | none => [("success", JVal.bool false), ("error", JVal.str "No video file uploaded")]
       | some vf =>
          if vf.filename = "" then
            [("success", JVal.bool false), ("error", JVal.str "No file selected")]
          else
            [("success", JVal.bool false),
             ("error", JVal.str "Unsupported file format. Please upload MP4, MOV, or AVI.")]) := by
  cases hv : req.video with
  | none => simp [analyze_handler, hv]
  | some vf =>
    by_cases hf : vf.filename = ""
    · simp [analyze_handler, hv, hf]
    · have ha : allowed_file vf.filename = false := by
        simp [failsValidation, hv, hf] at h; exact h
      simp [analyze_handler, hv, hf, ha]

/-- C4 (witness): the rejection theorem evaluated at an upload named
`clip.txt` (disallowed extension), with a file already in scratch. -/
theorem validation_rejects_before_save_witness :
    (analyze_handler ⟨some ⟨"clip.txt"⟩, none, none, none, none, none⟩ "u1" "clip.txt"
      .ok envOk (.ok "A") ["old.mp4"]).status = 400 ∧
    (analyze_handler ⟨some ⟨"clip.txt"⟩, none, none, none, none, none⟩ "u1" "clip.txt"
      .ok envOk (.ok "A") ["old.mp4"]).scratch = ["old.mp4"] :=
  ⟨(validation_rejects_before_save ⟨some ⟨"clip.txt"⟩, none, none, none, none, none⟩
      "u1" "clip.txt" .ok envOk (.ok "A") ["old.mp4"] (by decide)).1,
   (validation_rejects_before_save ⟨some ⟨"clip.txt"⟩, none, none, none, none, none⟩
      "u1" "clip.txt" .ok envOk (.ok "A") ["old.mp4"] (by decide)).2.1⟩

/-! ## C5 -/

/-- C5: for a probed duration over the 120-second cap, the sampling interval
is `min(duration, 120) / num_frames` — the ffmpeg `-vf` argument carries
exactly that interval (concretely `12.00` seconds for the configured 10
frames) and the `-vframes` argument still requests the configured frame
count. -/
theorem long_video_sampling_cap (d : ℚ) (hd : d > 120) (vp tmpdir : String) :
    sampling_interval d FRAMES_TO_EXTRACT = min d 120 / (FRAMES_TO_EXTRACT : ℚ) ∧
    (ffmpeg_cmd vp d FRAMES_TO_EXTRACT tmpdir)[4]? =
      some ("fps=1/" ++ fmt2f (min d 120 / (FRAMES_TO_EXTRACT : ℚ))) ∧
    fmt2f (sampling_interval d FRAMES_TO_EXTRACT) = "12.00" ∧
    (ffmpeg_cmd vp d FRAMES_TO_EXTRACT tmpdir)[8]? = some (toString FRAMES_TO_EXTRACT) := by
  have hcap : capped_duration d = 120 := by
    rw [capped_duration, MAX_VIDEO_DURATION]; exact if_pos hd
  have hmin : min d (120 : ℚ) = 120 := min_eq_right hd.le
  have hsi : sampling_interval d FRAMES_TO_EXTRACT = min d 120 / (FRAMES_TO_EXTRACT : ℚ) := by
    rw [sampling_interval, hcap, hmin]
  have h12 : sampling_interval d FRAMES_TO_EXTRACT = 12 := by
    rw [sampling_interval, hcap]; norm_num [FRAMES_TO_EXTRACT]
  refine ⟨hsi, ?_, ?_, ?_⟩
  · simp [ffmpeg_cmd, hsi]
  · rw [h12]; decide
  · simp [ffmpeg_cmd]

/-- C5 (witness): the cap theorem applied to a 150-second video. -/
theorem long_video_sampling_cap_witness :
    sampling_interval 150 FRAMES_TO_EXTRACT = min 150 120 / (FRAMES_TO_EXTRACT : ℚ) ∧
    fmt2f (sampling_interval 150 FRAMES_TO_EXTRACT) = "12.00" :=
  ⟨(long_video_sampling_cap 150 (by norm_num) "v.mp4" "/tmpdir").1,
   (long_video_sampling_cap 150 (by norm_num) "v.mp4" "/tmpdir").2.2.1⟩

/-! ## C6 -/

/-- C6: for every request that passes validation (and hence reaches the
file-save step), the temporary upload path is absent from scratch storage
when the handler returns — on pipeline success, pipeline failure, and a save
exception with or without a partial file, the `finally` clause removes it. -/
theorem upload_cleanup_guaranteed (req : AnalyzeReq) (uuidhex sec_name : String)
    (save : SaveOutcome) (env : VideoEnv) (api : Except PyExn String)
    (scratch0 : List String) (h : failsValidation req = false) :
    upload_path uuidhex sec_name ∉
      (analyze_handler req uuidhex sec_name save env api scratch0).scratch := by
  cases hv : req.video with
  | none => rw [failsValidation, hv] at h; cases h
  | some vf =>
    have hfa : ¬vf.filename = "" ∧ allowed_file vf.filename = true := by
      simpa [failsValidation, hv] using h
    cases save with
    | ok =>
        simp [analyze_handler, hv, hfa.1, hfa.2, List.mem_filter]
    | exn fileCreated msg =>
        cases fileCreated <;>
          simp [analyze_handler, hv, hfa.1, hfa.2, List.mem_filter]

/-- C6 (witness): cleanup holds for a concrete accepted upload whose pipeline
run succeeds. -/
theorem upload_cleanup_guaranteed_witness :
    upload_path "u1" "clip.mp4" ∉
      (analyze_handler ⟨some ⟨"clip.mp4"⟩, some "forehand", none, none, none, none⟩
        "u1" "clip.mp4" .ok envOk (.ok "A") ["old.mp4"]).scratch :=
  upload_cleanup_guaranteed ⟨some ⟨"clip.mp4"⟩, some "forehand", none, none, none, none⟩
    "u1" "clip.mp4" .ok envOk (.ok "A") ["old.mp4"] (by decide)

/-- For a request that passes validation, the handler's outcome by save
result: on a successful save the body is the pipeline envelope and the
status mirrors its `success` flag; on a save exception the status is 500. -/
theorem handler_pass_cases (req : AnalyzeReq) (uuidhex sec_name : String)
    (save : SaveOutcome) (env : VideoEnv) (api : Except PyExn String)
    (scratch0 : List String) (h : failsValidation req = false) :
    (save = .ok →
      analyze_handler req uuidhex sec_name save env api scratch0 =
        ⟨(if getKey (analyze_tennis_video (upload_path uuidhex sec_name)
              (req.form_stroke_type.getD "general") (build_student_info req) env api)
              "success" = some (.bool true) then 200 else 500),
         analyze_tennis_video (upload_path uuidhex sec_name)
           (req.form_stroke_type.getD "general") (build_student_info req) env api,
         (scratch0 ++ [upload_path uuidhex sec_name]).filter
           (fun p => p ≠ upload_path uuidhex sec_name)⟩) ∧
    (∀ fc m, save = .exn fc m →
      (analyze_handler req uuidhex sec_name save env api scratch0).status = 500) := by
  obtain ⟨vf, hv⟩ : ∃ vf, req.video = some vf := by
    cases hv : req.video with
    | none => rw [failsValidation, hv] at h; cases h
    | some vf => exact ⟨vf, rfl⟩
  have hfa : ¬vf.filename = "" ∧ allowed_file vf.filename = true := by
    simpa [failsValidation, hv] using h
  constructor
  · rintro rfl
    simp [analyze_handler, hv, hfa.1, hfa.2]
  · rintro fc m rfl
    cases fc <;> simp [analyze_handler, hv, hfa.1, hfa.2]

/-- For an accepted request with a successful save, the status is computed
from the returned body's `success` flag. -/
theorem handler_status_accepted (req : AnalyzeReq) (uuidhex sec_name : String)
    (env : VideoEnv) (api : Except PyExn String) (scratch0 : List String)
    (h : failsValidation req = false) :
    (analyze_handler req uuidhex sec_name .ok env api scratch0).status =
      (if getKey (analyze_handler req uuidhex sec_name .ok env api scratch0).body "success"
         = some (.bool true) then 200 else 500) := by
  rw [(handler_pass_cases req uuidhex sec_name .ok env api scratch0 h).1 rfl]

/-! ## C8 -/

/-- C8: the endpoint's HTTP status by outcome — 400 on any validation
failure; for accepted requests, 200 when the pipeline envelope has
`success=true` and 500 when it has `success=false`; 500 when an exception
escapes the save/analysis block; and the oversized-upload handler answers
413. -/
theorem http_status_mapping (req : AnalyzeReq) (uuidhex sec_name : String)
    (save : SaveOutcome) (fileCreated : Bool) (msg : String) (env : VideoEnv)
    (api : Except PyExn String) (scratch0 : List String) :
    (failsValidation req = true →
      (analyze_handler req uuidhex sec_name save env api scratch0).status = 400) ∧
    (failsValidation req = false →
      getKey (analyze_handler req uuidhex sec_name .ok env api scratch0).body "success"
          = some (.bool true) →
      (analyze_handler req uuidhex sec_name .ok env api scratch0).status = 200) ∧
    (failsValidation req = false →
      getKey (analyze_handler req uuidhex sec_name .ok env api scratch0).body "success"
          = some (.bool false) →
      (analyze_handler req uuidhex sec_name .ok env api scratch0).status = 500) ∧
    (failsValidation req = false →
      (analyze_handler req uuidhex sec_name (.exn fileCreated msg) env api scratch0).status
        = 500) ∧
    file_too_large.1 = 413 := by
  refine ⟨fun h => ?_, fun h hs => ?_, fun h hs => ?_, fun h => ?_, rfl⟩
  · cases hv : req.video with
    | none => simp [analyze_handler, hv]
    | some vf =>
      by_cases hf : vf.filename = ""
      · simp [analyze_handler, hv, hf]
      · have ha : allowed_file vf.filename = false := by
          simp [failsValidation, hv, hf] at h; exact h
        simp [analyze_handler, hv, hf, ha]
  · rw [handler_status_accepted req uuidhex sec_name env api scratch0 h, if_pos hs]
  · rw [handler_status_accepted req uuidhex sec_name env api scratch0 h, if_neg]
    intro hc; rw [hs] at hc; cases hc
  · exact (handler_pass_cases req uuidhex sec_name (.exn fileCreated msg) env api
      scratch0 h).2 fileCreated msg rfl

/-- C8 (witness): the status mapping evaluated at concrete requests — a
missing video field (400), a successful run (200), a remote failure (500),
a save exception (500), and the oversized-upload handler (413). -/
theorem http_status_mapping_witness :
    (analyze_handler ⟨none, none, none, none, none, none⟩ "u" "s" .ok envOk
      (.ok "A") []).status = 400 ∧
    (analyze_handler ⟨some ⟨"clip.mp4"⟩, none, none, none, none, none⟩ "u" "s" .ok envOk
      (.ok "A") []).status = 200 ∧
    (analyze_handler ⟨some ⟨"clip.mp4"⟩, none, none, none, none, none⟩ "u" "s" .ok envOk
      (.error (.APIError "boom")) []).status = 500 ∧
    (analyze_handler ⟨some ⟨"clip.mp4"⟩, none, none, none, none, none⟩ "u" "s"
      (.exn true "disk full") envOk (.ok "A") []).status = 500 ∧
    file_too_large.1 = 413 :=
  ⟨(http_status_mapping ⟨none, none, none, none, none, none⟩ "u" "s" .ok true "m" envOk
      (.ok "A") []).1 (by decide),
   (http_status_mapping ⟨some ⟨"clip.mp4"⟩, none, none, none, none, none⟩ "u" "s" .ok
      true "m" envOk (.ok "A") []).2.1 (by decide) (by decide),
   (http_status_mapping ⟨some ⟨"clip.mp4"⟩, none, none, none, none, none⟩ "u" "s" .ok
      true "m" envOk (.error (.APIError "boom")) []).2.2.1 (by decide) (by decide),
   (http_status_mapping ⟨some ⟨"clip.mp4"⟩, none, none, none, none, none⟩ "u" "s" .ok
      true "disk full" envOk (.ok "A") []).2.2.2.1 (by decide),
   (http_status_mapping ⟨none, none, none, none, none, none⟩ "u" "s" .ok true "m" envOk
      (.ok "A") []).2.2.2.2⟩

/-- Every failure envelope has `success = False`. -/
theorem errorEnvelope_success (e : PyExn) :
    getKey (errorEnvelope e) "success" = some (.bool false) := by
  cases e <;> rfl

/-! ## C9 -/

/-- C9: on every successful pipeline run in which no student name was
supplied — `student_info` is `None`, or is a dict without a `name` key —
the envelope's `student_name` is the fixed placeholder `"Student"`. -/
theorem default_student_name (vp st : String) (si : Option StudentInfo)
    (env : VideoEnv) (api : Except PyExn String)
    (hs : getKey (analyze_tennis_video vp st si env api) "success" = some (.bool true))
    (hn : si = none ∨ ∃ s, si = some s ∧ s.name = none) :
    getKey (analyze_tennis_video vp st si env api) "student_name"
      = some (.str "Student") := by
  cases hres : extract_frames vp env FRAMES_TO_EXTRACT with
  | error e =>
      simp [analyze_tennis_video, hres, errorEnvelope_success] at hs
  | ok frames =>
      simp only [analyze_tennis_video, hres] at hs ⊢
      cases api with
      | error e => simp [errorEnvelope_success] at hs
      | ok analysis =>
          rcases hn with rfl | ⟨s, rfl, hname⟩
          · simp [getKey]
          · simp [getKey, hname]

/-- C9 (witness): a successful run with `student_info = None` yields
`student_name = "Student"`. -/
theorem default_student_name_witness :
    getKey (analyze_tennis_video "v.mp4" "forehand" none envOk (.ok "A")) "student_name"
      = some (.str "Student") :=
  default_student_name "v.mp4" "forehand" none envOk (.ok "A") (by decide) (Or.inl rfl)

/-! ## C7 -/

/-- The per-frame loop emits exactly two blocks per frame. -/
theorem frame_blocks_length (fs : List String) (i : Nat) :
    (frame_blocks fs i).length = 2 * fs.length := by
  induction fs generalizing i with
  | nil => rfl
  | cons f t ih =>
      simp only [frame_blocks, List.length_cons, ih]
      ring

/-- The two blocks for frame `k` of the enumeration starting at `i`: the
image at even position `2k`, its label at `2k+1`. -/
theorem frame_blocks_get (fs : List String) (i k : Nat) :
    (frame_blocks fs i)[2 * k]? = (fs[k]?).map Block.image ∧
    (frame_blocks fs i)[2 * k + 1]? =
      (fs[k]?).map (fun _ => Block.text ("[Frame " ++ toString (i + k + 1) ++ "]")) := by
  induction fs generalizing i k with
  | nil => simp [frame_blocks]
  | cons f t ih =>
      cases k with
      | zero => simp [frame_blocks]
      | succ k =>
          have e1 : 2 * (k + 1) = 2 * k + 1 + 1 := by ring
          rw [e1]
          simp only [frame_blocks, List.getElem?_cons_succ]
          refine ⟨(ih (i + 1) k).1, ?_⟩
          rw [show i + (k + 1) + 1 = i + 1 + k + 1 from by ring]
          exact (ih (i + 1) k).2

/-- C7: for a non-empty frame list of length `n`, the message content is
exactly `2n+1` blocks — for each `k < n` the image of frame `k` at position
`2k` immediately followed by its 1-indexed `[Frame k+1]` label, then one
trailing text block holding the full user instructions. -/
theorem message_content_shape (fs : List String) (st : String)
    (si : Option StudentInfo) (hne : fs ≠ []) :
    (message_content fs st si).length = 2 * fs.length + 1 ∧
    (∀ k, k < fs.length →
      (message_content fs st si)[2 * k]? = (fs[k]?).map Block.image ∧
      (message_content fs st si)[2 * k + 1]? =
        some (Block.text ("[Frame " ++ toString (k + 1) ++ "]"))) ∧
    (message_content fs st si)[2 * fs.length]? =
      some (Block.text (build_user_prompt fs.length st si)) := by
  refine ⟨?_, ?_, ?_⟩
  · simp [message_content, frame_blocks_length]
  · intro k hk
    have h1 : 2 * k < (frame_blocks fs 0).length := by rw [frame_blocks_length]; omega
    have h2 : 2 * k + 1 < (frame_blocks fs 0).length := by rw [frame_blocks_length]; omega
    constructor
    · rw [message_content, List.getElem?_append, if_pos h1]
      exact (frame_blocks_get fs 0 k).1
    · rw [message_content, List.getElem?_append, if_pos h2,
          (frame_blocks_get fs 0 k).2, List.getElem?_eq_getElem hk]
      simp
  · rw [message_content, List.getElem?_append, if_neg (by rw [frame_blocks_length]; omega),
        frame_blocks_length]
    simp

/-- C7 (witness): the shape theorem evaluated on a three-frame list. -/
theorem message_content_shape_witness :
    (message_content ["f1", "f2", "f3"] "serve" none).length = 2 * 3 + 1 ∧
    (message_content ["f1", "f2", "f3"] "serve" none)[2 * 1]? =
      ((["f1", "f2", "f3"] : List String)[1]?).map Block.image ∧
    (message_content ["f1", "f2", "f3"] "serve" none)[2 * 1 + 1]? =
      some (Block.text ("[Frame " ++ toString (1 + 1) ++ "]")) ∧
    (message_content ["f1", "f2", "f3"] "serve" none)[2 * 3]? =
      some (Block.text (build_user_prompt 3 "serve" none)) :=
  ⟨(message_content_shape ["f1", "f2", "f3"] "serve" none (by decide)).1,
   ((message_content_shape ["f1", "f2", "f3"] "serve" none (by decide)).2.1 1
      (by decide)).1,
   ((message_content_shape ["f1", "f2", "f3"] "serve" none (by decide)).2.1 1
      (by decide)).2,
   (message_content_shape ["f1", "f2", "f3"] "serve" none (by decide)).2.2⟩

/-! ## C10 -/

/-- A list containing `c` splits at the first occurrence of `c`. -/
theorem exists_split_first {α : Type} [DecidableEq α] (c : α) (l : List α)
    (h : c ∈ l) : ∃ a b : List α, l = a ++ c :: b ∧ c ∉ a := by
  induction l with
  | nil => cases h
  | cons d t ih =>
      by_cases hd : d = c
      · exact ⟨[], t, by rw [hd]; rfl, by simp⟩
      · rcases List.mem_cons.mp h with h1 | h2
        · exact absurd h1.symm hd
        · obtain ⟨a, b, hl, hna⟩ := ih h2
          refine ⟨d :: a, b, by rw [hl]; rfl, ?_⟩
          intro hc
          rcases List.mem_cons.mp hc with h3 | h4
          · exact hd h3.symm
          · exact hna h4

/-- Running `takeWhile (· ≠ c)` over a list whose first `c` sits right after `pre`
returns exactly `pre`. -/
theorem takeWhile_append_first {α : Type} [DecidableEq α] (c : α)
    (pre post : List α) (hpre : c ∉ pre) :
    (pre ++ c :: post).takeWhile (fun x => x ≠ c) = pre := by
  induction pre with
  | nil => simp [List.takeWhile_cons]
  | cons d t ih =>
      have hd : ¬(d = c) := by
        intro e; subst e; exact hpre (List.mem_cons_self d t)
      have ht : c ∉ t := fun hc => hpre (List.mem_cons_of_mem d hc)
      have ih2 := ih ht
      simp only [ne_eq, decide_not] at ih2
      simp only [List.cons_append, List.takeWhile_cons]
      simp [hd, ih2]

/-- On any decomposition of the filename at its last dot, `extAfterLastDot`
returns the part after that dot. -/
theorem extAfterLastDot_of_decomp (s : String) (pre ext : List Char)
    (hs : s.data = pre ++ '.' :: ext) (hext : '.' ∉ ext) :
    extAfterLastDot s = String.mk ext := by
  rw [extAfterLastDot, hs, List.reverse_append, List.reverse_cons,
      List.append_assoc, List.singleton_append,
      takeWhile_append_first '.' ext.reverse pre.reverse (by simpa using hext),
      List.reverse_reverse]

/-- C10: `allowed_file` accepts exactly the filenames that contain a dot and
whose substring after the last dot lowercases to one of the six allowed
extensions; in particular `CLIP.MP4` is accepted and the dotless `video` is
rejected. -/
theorem allowed_file_last_dot_spec (filename : String) :
    (allowed_file filename = true ↔
      ∃ pre ext : List Char, filename.data = pre ++ '.' :: ext ∧ '.' ∉ ext ∧
        String.mk (ext.map Char.toLower) ∈
          (["mp4", "mov", "avi", "mkv", "m4v", "webm"] : List String)) ∧
    allowed_file "CLIP.MP4" = true ∧ allowed_file "video" = false := by
  refine ⟨⟨?_, ?_⟩, by decide, by decide⟩
  · intro h
    rw [allowed_file, Bool.and_eq_true] at h
    obtain ⟨hdot, hmem⟩ := h
    have hdotrev : '.' ∈ filename.data.reverse := by
      rw [List.mem_reverse]; simpa using hdot
    obtain ⟨a, b, hrev, hna⟩ := exists_split_first '.' filename.data.reverse hdotrev
    have hdata : filename.data = b.reverse ++ '.' :: a.reverse := by
      have hr := congrArg List.reverse hrev
      rw [List.reverse_reverse, List.reverse_append, List.reverse_cons,
          List.append_assoc, List.singleton_append] at hr
      exact hr
    have hnotext : '.' ∉ a.reverse := by simpa using hna
    refine ⟨b.reverse, a.reverse, hdata, hnotext, ?_⟩
    rw [extAfterLastDot_of_decomp filename b.reverse a.reverse hdata hnotext] at hmem
    have : pyLower (String.mk a.reverse) = String.mk (a.reverse.map Char.toLower) := rfl
    rw [this] at hmem
    simpa [ALLOWED_EXTENSIONS] using hmem
  · rintro ⟨pre, ext, hdata, hext, hmem⟩
    rw [allowed_file, Bool.and_eq_true]
    constructor
    · rw [hdata]
      simp
    · rw [extAfterLastDot_of_decomp filename pre ext hdata hext]
      simpa [ALLOWED_EXTENSIONS, pyLower] using hmem

end SDTennis
